import Mathlib

/-! Verification development for the classification-and-aggregation core of
`src/dashboard/main.py`.

Modelling conventions used throughout:
* a CSV cell is an `Option String`; `none` models pandas `NaN` (absent/null),
  so Python's `pd.isna(v)` is the `none` case;
* Python `str.strip()` is `strip` below, and Python `'-' in s` is
  `containsChar '-' s` below; both are written over the character list so
  that they evaluate by kernel reduction;
* Python `dict.get(k, d)` over `REPLACEMENT_MAP` is `List.lookup` with a
  default (the dict's keys are pairwise distinct, so first-match lookup agrees
  with the dict);
* the pandas `Series.value_counts()` call used by the aggregations is modelled
  as: the distinct keys in first-appearance order paired with their counts,
  stably sorted by count ascending and then reversed (pandas produces the
  descending order by reversing an ascending stable argsort, so ties end up in
  reverse first-appearance order). `NaN` entries are dropped, as pandas does
  by default.
-/

/-- KNOWN_STATES from `main.py`. The Python source additionally applies
`sorted(...)` to this list; the sort is irrelevant here because the list is
only ever used for membership tests. -/
def KNOWN_STATES : List String := [
  "Andhra Pradesh", "Arunachal Pradesh", "Assam", "Bihar", "Chhattisgarh",
  "Goa", "Gujarat", "Haryana", "Himachal Pradesh", "Jharkhand", "Karnataka",
  "Kerala", "Madhya Pradesh", "Maharashtra", "Manipur", "Meghalaya",
  "Mizoram", "Nagaland", "Odisha", "Punjab", "Rajasthan", "Sikkim",
  "Tamil Nadu", "Telangana", "Tripura", "Uttar Pradesh", "Uttarakhand",
  "West Bengal", "Foreign", "Unknown", "Telangana/Andhra Pradesh"]

/-- REPLACEMENT_MAP from `main.py`, in the dict's insertion order. -/
def REPLACEMENT_MAP : List (String × String) := [
  ("AndhraPradesh", "Andhra Pradesh"),
  ("TamilNadu", "Tamil Nadu"),
  ("Telagana", "Telangana"),
  ("India (State Undetermined)", "Unknown"),
  ("Overseas", "Foreign"),
  ("LKDFJAKLD", "Unknown"),
  ("India", "Unknown"),
  ("Telengana", "Telangana"),
  ("Telangana State", "Telangana"),
  ("Andhra Pradesh / Telangana", "Telangana/Andhra Pradesh"),
  ("Andhra Pradesh /Telangana", "Telangana/Andhra Pradesh"),
  ("Andhra Pradesh / Telangana ", "Telangana/Andhra Pradesh")]

/-- Python's `str.strip()`: drop leading and trailing whitespace. Written
directly over the character list (rather than through `String.trim`) so that
it evaluates by kernel reduction. -/
def strip (s : String) : String :=
  String.mk (((s.data.dropWhile Char.isWhitespace).reverse.dropWhile
    Char.isWhitespace).reverse)

/-- Python's `c in s` membership test on the characters of a string. -/
def containsChar (c : Char) (s : String) : Bool :=
  s.data.contains c

/-- determine_state_logic from `main.py`: the per-value state classifier. -/
def determine_state_logic (college_val : Option String)
    (replacement_map : List (String × String))
    (known_states_list : List String) : String :=
  match college_val with
  | none => "Unknown"
  | some v =>
    let college_str := strip v
    if containsChar '-' college_str then
      "Telangana"
    else
      let potential_state := (replacement_map.lookup college_str).getD college_str
      if potential_state ∈ known_states_list then potential_state else "Unknown"

/-- The characters of a string after its first hyphen: Python's
`s.split('-', 1)[1]`, which the source only evaluates when `'-' in s`. -/
def dropThroughHyphen : List Char → List Char
  | [] => []
  | c :: cs => if c = '-' then cs else dropThroughHyphen cs

/-- Portion of `s` after its first hyphen (see `dropThroughHyphen`). -/
def afterFirstHyphen (s : String) : String :=
  String.mk (dropThroughHyphen s.data)

/-- One input row: an ordered mapping from column name to cell value. -/
structure RawRecord where
  fields : List (String × Option String)
deriving DecidableEq

/-- Cell of column `c` in record `r` (a missing field behaves like NaN). -/
def RawRecord.get (r : RawRecord) (c : String) : Option String :=
  (r.fields.lookup c).bind id

/-- The college-name extraction lambda from `load_data` in `main.py`:
`str(row['college']).split('-', 1)[1].strip()` when the row's state is
`'Telangana'`, the college cell is a string, and it contains a hyphen;
`None` otherwise. -/
def extract_college_name (college : Option String) (state : String) : Option String :=
  match college with
  | none => none
  | some s =>
    if state == "Telangana" && containsChar '-' s then
      some (strip (afterFirstHyphen s))
    else
      none

/-- A raw record enriched with the two derived columns (`df['state']` and
`df['college_name']` in `main.py`). -/
structure EnrichedRecord where
  raw : RawRecord
  state : String
  college_name : Option String
deriving DecidableEq

/-- Per-row enrichment performed by `load_data`: classify the `college` cell
with the deployed registry, then extract the college name. -/
def processRecord (r : RawRecord) : EnrichedRecord :=
  let st := determine_state_logic (r.get "college") REPLACEMENT_MAP KNOWN_STATES
  { raw := r, state := st
    college_name := extract_college_name (r.get "college") st }

/-- A parsed CSV: header columns and rows. -/
structure DataFrame where
  columns : List String
  rows : List RawRecord
deriving DecidableEq

/-- The schema-level failure of `load_data`: the dataset has no `college`
column (`main.py` reports this with `st.error` and returns an empty frame). -/
inductive SchemaError where
  | missingCollegeColumn
deriving DecidableEq

/-- load_data from `main.py`, past CSV parsing: fail on a missing `college`
column, otherwise enrich every row. -/
def load_data (df : DataFrame) : Except SchemaError (List EnrichedRecord) :=
  if "college" ∈ df.columns then
    Except.ok (df.rows.map processRecord)
  else
    Except.error SchemaError.missingCollegeColumn

/-- Distinct elements of a list in first-appearance order, with explicit
fuel so that the recursion is structural (the fuel never runs out when it
starts at the list's length, because filtering only shortens the tail). -/
def uniqueFirstAux : Nat → List String → List String
  | _, [] => []
  | 0, _ :: _ => []
  | Nat.succ n, x :: xs => x :: uniqueFirstAux n (xs.filter (fun y => y != x))

/-- Distinct elements of `l` in first-appearance order (the key order of the
pandas hashtable underlying `value_counts`). -/
def uniqueFirst (l : List String) : List String :=
  uniqueFirstAux l.length l

/-- Comparison by count, used to model the ascending sort inside
`value_counts`. -/
def countLE (a b : String × Nat) : Prop := a.2 ≤ b.2

instance : DecidableRel countLE := fun a b => inferInstanceAs (Decidable (a.2 ≤ b.2))

instance : IsTotal (String × Nat) countLE := ⟨fun a b => Nat.le_total a.2 b.2⟩

instance : IsTrans (String × Nat) countLE := ⟨fun _ _ _ => Nat.le_trans⟩

/-- Model of `Series.value_counts()` on a series of strings (`NaN`-free by
construction here): pair each distinct value, in first-appearance order, with
its count, then sort by count descending. pandas realizes the descending
order as a reversed ascending stable sort, which is mirrored here with
`insertionSort` (stable) followed by `reverse`. -/
def valueCounts (l : List String) : List (String × Nat) :=
  (List.insertionSort countLE ((uniqueFirst l).map (fun k => (k, l.count k)))).reverse

/-- Region frequency table: `df_processed['state'].value_counts()`. -/
def regionCounts (recs : List EnrichedRecord) : List (String × Nat) :=
  valueCounts (recs.map (fun r => r.state))

/-- Institution frequency table for one region, as computed in `main`'s
College Details tab: filter the rows to the target region, take
`value_counts()` of their `college_name` column (dropping `NaN`), then drop
entries whose name strips to the empty string. -/
def institutionCounts (recs : List EnrichedRecord) (targetRegion : String) :
    List (String × Nat) :=
  (valueCounts ((recs.filter (fun r => r.state == targetRegion)).filterMap
      (fun r => r.college_name))).filter (fun p => strip p.1 != "")

/-- Top-N selection from a counts table: `main.py` uses `.head(10)` on the
`value_counts` output; the literal 10 is generalized to `n`. -/
def topN (counts : List (String × Nat)) (n : Nat) : List (String × Nat) :=
  counts.take n

/-- Lexicographic strictly-less-than on strings by character codepoint,
written structurally so that it evaluates by kernel reduction. -/
def charListLt : List Char → List Char → Bool
  | _, [] => false
  | [], _ :: _ => true
  | c :: cs, d :: ds =>
    if c.toNat < d.toNat then true
    else if d.toNat < c.toNat then false
    else charListLt cs ds

/-- Lexicographic strictly-less-than on strings (see `charListLt`). -/
def strLt (a b : String) : Bool :=
  charListLt a.data b.data

/-- Modelled from the spec words for the `topN` contract (used only as a
comparison point): order entries so that a precedes b when a's count is
larger, or the counts are equal and a's name is not larger. -/
def specRel (a b : String × Nat) : Prop :=
  b.2 < a.2 ∨ (a.2 = b.2 ∧ strLt b.1 a.1 = false)

instance : DecidableRel specRel :=
  fun a b => inferInstanceAs (Decidable (b.2 < a.2 ∨ (a.2 = b.2 ∧ strLt b.1 a.1 = false)))

/-- Modelled from the spec words: sort by count descending with ties broken
by institution name ascending, then take the first `n`. -/
def topNSpec (counts : List (String × Nat)) (n : Nat) : List (String × Nat) :=
  (List.insertionSort specRel counts).take n

/-- Concrete rows used to exhibit the tie-ordering of the top-N table. -/
def exRowsC5 : List RawRecord := [
  RawRecord.mk [("college", some "T1 - B")],
  RawRecord.mk [("college", some "T2 - C")],
  RawRecord.mk [("college", some "T3 - A")]]

/-- Concrete well-formed dataset with a `college` column. -/
def exDf : DataFrame :=
  DataFrame.mk ["email", "college"] [
    RawRecord.mk [("email", some "a@b"), ("college", some "VJIT - X")],
    RawRecord.mk [("email", some "c@d"), ("college", some "Karnataka")]]

/-- Concrete dataset lacking the `college` column. -/
def exDfNoCollege : DataFrame :=
  DataFrame.mk ["email"] [RawRecord.mk [("email", some "a@b")]]

/-- Concrete single-row record set producing one Telangana institution. -/
def exRowsC6 : List RawRecord := [RawRecord.mk [("college", some "AB - XYZ")]]

theorem mem_uniqueFirstAux :
    ∀ (n : Nat) (l : List String) (a : String), a ∈ uniqueFirstAux n l → a ∈ l := by
  intro n
  induction n with
  | zero =>
    intro l a h
    cases l <;> simp [uniqueFirstAux] at h
  | succ n ih =>
    intro l a h
    cases l with
    | nil => simp [uniqueFirstAux] at h
    | cons x xs =>
      rw [uniqueFirstAux] at h
      rcases List.mem_cons.mp h with rfl | h
      · exact List.mem_cons_self _ _
      · exact List.mem_cons_of_mem _ (List.mem_of_mem_filter (ih _ _ h))

theorem count_add_length_filter (x : String) :
    ∀ xs : List String,
      xs.count x + (xs.filter (fun y => y != x)).length = xs.length := by
  intro xs
  induction xs with
  | nil => rfl
  | cons y ys ih =>
    by_cases h : y = x
    · subst h
      simp only [List.count_cons_self, List.filter_cons, bne_self_eq_false,
        Bool.false_eq_true, if_false, List.length_cons]
      omega
    · rw [List.count_cons_of_ne (Ne.symm h)]
      simp only [List.filter_cons, bne_iff_ne, ne_eq, h, not_false_eq_true,
        if_true, List.length_cons]
      omega

theorem sum_counts_uniqueFirstAux :
    ∀ (n : Nat) (l : List String), l.length ≤ n →
      ((uniqueFirstAux n l).map (fun k => l.count k)).sum = l.length := by
  intro n
  induction n with
  | zero =>
    intro l hl
    have : l = [] := List.length_eq_zero.mp (Nat.le_zero.mp hl)
    subst this
    rfl
  | succ n ih =>
    intro l hl
    cases l with
    | nil => rfl
    | cons x xs =>
      rw [uniqueFirstAux]
      rw [List.map_cons, List.sum_cons]
      have hcongr :
          (uniqueFirstAux n (xs.filter (fun y => y != x))).map
              (fun k => (x :: xs).count k) =
            (uniqueFirstAux n (xs.filter (fun y => y != x))).map
              (fun k => (xs.filter (fun y => y != x)).count k) := by
        apply List.map_congr_left
        intro k hk
        have hkf : k ∈ xs.filter (fun y => y != x) := mem_uniqueFirstAux _ _ _ hk
        have hkx : k ≠ x := by
          have := (List.mem_filter.mp hkf).2
          simpa [bne_iff_ne] using this
        rw [List.count_cons_of_ne hkx, List.count_filter]
        simpa [bne_iff_ne] using hkx
      rw [hcongr]
      have hlen : (xs.filter (fun y => y != x)).length ≤ n := by
        have h1 : (xs.filter (fun y => y != x)).length ≤ xs.length :=
          List.length_filter_le _ _
        have h2 : xs.length ≤ n := by
          simpa [List.length_cons, Nat.succ_le_succ_iff] using hl
        omega
      rw [ih _ hlen]
      have := count_add_length_filter x xs
      simp only [List.count_cons_self, List.length_cons]
      omega

theorem mem_valueCounts (l : List String) (p : String × Nat)
    (h : p ∈ valueCounts l) : p.1 ∈ l := by
  unfold valueCounts at h
  rw [List.mem_reverse] at h
  rw [(List.perm_insertionSort countLE _).mem_iff] at h
  obtain ⟨k, hk, hkp⟩ := List.mem_map.mp h
  have : p.1 = k := by rw [← hkp]
  rw [this]
  exact mem_uniqueFirstAux _ _ _ hk

theorem valueCounts_sum (l : List String) :
    ((valueCounts l).map (fun p => p.2)).sum = l.length := by
  unfold valueCounts
  rw [List.map_reverse, List.sum_reverse]
  rw [((List.perm_insertionSort countLE _).map (fun p => p.2)).sum_eq]
  rw [List.map_map]
  exact sum_counts_uniqueFirstAux l.length l (Nat.le_refl _)

theorem valueCounts_pairwise (l : List String) :
    (valueCounts l).Pairwise (fun a b => b.2 ≤ a.2) := by
  unfold valueCounts
  rw [List.pairwise_reverse]
  exact List.sorted_insertionSort countLE _

/-- Claim C1: any input whose stripped form contains a hyphen anywhere is
classified as Telangana (the code-format region), regardless of all other
content, so the hyphen rule takes precedence over the alias-map lookup and
the region-set membership check. -/
theorem classify_hyphen_forces_telangana (s : String)
    (h : containsChar '-' (strip s) = true) :
    determine_state_logic (some s) REPLACEMENT_MAP KNOWN_STATES = "Telangana" := by
  unfold determine_state_logic
  simp [h]

theorem classify_hyphen_forces_telangana_witness :
    containsChar '-' (strip "no-hyphen-but-this-has-one") = true ∧
    determine_state_logic (some "no-hyphen-but-this-has-one") REPLACEMENT_MAP
      KNOWN_STATES = "Telangana" :=
  ⟨by decide, classify_hyphen_forces_telangana _ (by decide)⟩

/-- Claim C2: the classifier is a total Lean function, so it never raises;
absent/null input yields Unknown, the empty string yields Unknown, and any
non-hyphenated input whose alias-resolved form is not in the enumerated
region set yields Unknown. -/
theorem classify_total_never_fails :
    determine_state_logic none REPLACEMENT_MAP KNOWN_STATES = "Unknown" ∧
    determine_state_logic (some "") REPLACEMENT_MAP KNOWN_STATES = "Unknown" ∧
    ∀ s : String, containsChar '-' (strip s) = false →
      ((REPLACEMENT_MAP.lookup (strip s)).getD (strip s)) ∉ KNOWN_STATES →
      determine_state_logic (some s) REPLACEMENT_MAP KNOWN_STATES = "Unknown" := by
  refine ⟨rfl, by decide, ?_⟩
  intro s h1 h2
  unfold determine_state_logic
  simp [h1, h2]

theorem classify_total_never_fails_witness :
    (containsChar '-' (strip "student@mail.example") = false ∧
      ((REPLACEMENT_MAP.lookup (strip "student@mail.example")).getD
        (strip "student@mail.example")) ∉ KNOWN_STATES) ∧
    determine_state_logic (some "student@mail.example") REPLACEMENT_MAP
      KNOWN_STATES = "Unknown" :=
  ⟨⟨by decide, by decide⟩,
    classify_total_never_fails.2.2 _ (by decide) (by decide)⟩

/-- Claim C3: extraction returns absent for every input whose region is not
Telangana; for a string input in the Telangana region containing a hyphen it
takes the portion after the first hyphen only and strips whitespace, as on
the two concrete examples. -/
theorem extractName_contract :
    (∀ (c : Option String) (region : String), region ≠ "Telangana" →
      extract_college_name c region = none) ∧
    (∀ s : String, containsChar '-' s = true →
      extract_college_name (some s) "Telangana" =
        some (strip (afterFirstHyphen s))) ∧
    extract_college_name (some "VJIT - VIDYAJYOTHI INSTITUTE OF TECHNOLOGY")
      "Telangana" = some "VIDYAJYOTHI INSTITUTE OF TECHNOLOGY" ∧
    extract_college_name (some "CODE -- NAME") "Telangana" = some "- NAME" := by
  refine ⟨?_, ?_, by decide, by decide⟩
  · intro c region hne
    cases c with
    | none => rfl
    | some s =>
      unfold extract_college_name
      have hb : (region == "Telangana") = false := by
        simpa using hne
      simp [hb]
  · intro s h
    unfold extract_college_name
    simp [h]

theorem extractName_contract_witness :
    (("Karnataka" ≠ "Telangana") ∧
      extract_college_name (some "VJIT - X") "Karnataka" = none) ∧
    (containsChar '-' "AB - Y" = true ∧
      extract_college_name (some "AB - Y") "Telangana" =
        some (strip (afterFirstHyphen "AB - Y"))) :=
  ⟨⟨by decide, extractName_contract.1 _ _ (by decide)⟩,
    ⟨by decide, extractName_contract.2.1 _ (by decide)⟩⟩

/-- Claim C4: on any dataset with a `college` column (including one with no
rows), processing succeeds and yields one output per input row, in input
order, each derived from its own row alone by `processRecord`. -/
theorem process_preserves_length_and_order (df : DataFrame)
    (h : "college" ∈ df.columns) :
    ∃ out, load_data df = Except.ok out ∧ out.length = df.rows.length ∧
      ∀ i : Nat, out[i]? = (df.rows[i]?).map processRecord := by
  refine ⟨df.rows.map processRecord, ?_, List.length_map _ _, ?_⟩
  · unfold load_data
    simp [h]
  · intro i
    simp [List.getElem?_map]

theorem process_preserves_length_and_order_witness :
    "college" ∈ exDf.columns ∧
    (∃ out, load_data exDf = Except.ok out ∧ out.length = exDf.rows.length ∧
      ∀ i : Nat, out[i]? = (exDf.rows[i]?).map processRecord) :=
  ⟨by decide, process_preserves_length_and_order exDf (by decide)⟩

/-- Claim C5 counterexample: with three Telangana institutions named B, C, A
(in that input order), each with count 1, the code's top-3 is the
value_counts order, not the count-descending name-ascending order the claim
describes, so the claimed tie-break fails. -/
theorem topN_name_tiebreak_counterexample :
    topN (institutionCounts (exRowsC5.map processRecord) "Telangana") 3 ≠
      topNSpec (institutionCounts (exRowsC5.map processRecord) "Telangana") 3 := by
  decide

/-- Claim C5 (amended): for every institution-count table and every n, topN
returns the first n entries of the table, and the table is sorted by count
descending; ties follow the order produced by value_counts (in this model,
the reverse of first appearance), not institution name ascending. -/
theorem topN_amended (recs : List EnrichedRecord) (target : String) (n : Nat) :
    topN (institutionCounts recs target) n =
      (institutionCounts recs target).take n ∧
    (institutionCounts recs target).Pairwise (fun a b => b.2 ≤ a.2) := by
  refine ⟨rfl, ?_⟩
  unfold institutionCounts
  exact (valueCounts_pairwise _).filter _

/-- Claim C6: every entry of the institution-count table has a name that
does not strip to the empty string, and comes from some record of the input
whose region equals the target region and whose institution name is present
(equal to the entry's name). -/
theorem institutionCounts_scoped (recs : List EnrichedRecord) (target : String)
    (p : String × Nat) (h : p ∈ institutionCounts recs target) :
    strip p.1 ≠ "" ∧
      ∃ r, r ∈ recs ∧ r.state = target ∧ r.college_name = some p.1 := by
  unfold institutionCounts at h
  obtain ⟨hmem, hpred⟩ := List.mem_filter.mp h
  refine ⟨by simpa using hpred, ?_⟩
  have hkey : p.1 ∈ (recs.filter (fun r => r.state == target)).filterMap
      (fun r => r.college_name) := mem_valueCounts _ _ hmem
  obtain ⟨r, hr, hsome⟩ := List.mem_filterMap.mp hkey
  obtain ⟨hrecs, hstate⟩ := List.mem_filter.mp hr
  exact ⟨r, hrecs, by simpa using hstate, hsome⟩

theorem institutionCounts_scoped_witness :
    ("XYZ", 1) ∈ institutionCounts (exRowsC6.map processRecord) "Telangana" ∧
    (strip ("XYZ", 1).1 ≠ "" ∧
      ∃ r, r ∈ exRowsC6.map processRecord ∧ r.state = "Telangana" ∧
        r.college_name = some ("XYZ", 1).1) :=
  ⟨by decide, institutionCounts_scoped _ _ _ (by decide)⟩

/-- Claim C7: the counts in the region frequency table sum to the total
number of processed records — every record falls into exactly one region
bucket. -/
theorem regionCounts_sum_total (recs : List EnrichedRecord) :
    ((regionCounts recs).map (fun p => p.2)).sum = recs.length := by
  unfold regionCounts
  rw [valueCounts_sum]
  exact List.length_map _ _

/-- Claim C8: when the dataset's column set has no `college` field,
processing fails with the schema error for the whole dataset — the result
carries no enriched records, whatever the rows are. -/
theorem load_data_schema_error (df : DataFrame)
    (h : "college" ∉ df.columns) :
    load_data df = Except.error SchemaError.missingCollegeColumn := by
  unfold load_data
  simp [h]

theorem load_data_schema_error_witness :
    "college" ∉ exDfNoCollege.columns ∧
    load_data exDfNoCollege = Except.error SchemaError.missingCollegeColumn :=
  ⟨by decide, load_data_schema_error _ (by decide)⟩

/-- Claim C9: for every hyphen-free key of the alias map, classifying the
key gives the same region as classifying its mapped canonical target, and
every value of the alias map is a member of the enumerated region set or one
of the Unknown/Foreign sentinels. -/
theorem aliasMap_coherent :
    (∀ kv ∈ REPLACEMENT_MAP, containsChar '-' kv.1 = false →
      determine_state_logic (some kv.1) REPLACEMENT_MAP KNOWN_STATES =
        determine_state_logic (some kv.2) REPLACEMENT_MAP KNOWN_STATES) ∧
    (∀ kv ∈ REPLACEMENT_MAP,
      kv.2 ∈ KNOWN_STATES ∨ kv.2 = "Unknown" ∨ kv.2 = "Foreign") := by
  constructor <;> decide

theorem aliasMap_coherent_witness :
    (("Overseas", "Foreign") ∈ REPLACEMENT_MAP ∧
      containsChar '-' ("Overseas", "Foreign").1 = false) ∧
    determine_state_logic (some "Overseas") REPLACEMENT_MAP KNOWN_STATES =
      determine_state_logic (some "Foreign") REPLACEMENT_MAP KNOWN_STATES :=
  ⟨⟨by decide, by decide⟩,
    aliasMap_coherent.1 ("Overseas", "Foreign") (by decide) (by decide)⟩

/-- Claim C10: a record whose college cell is a string classified as
Telangana but containing no hyphen is processed with an absent institution
name (not a failure and not an empty string): the after-first-hyphen access
is guarded by the hyphen-presence check. -/
theorem hyphenless_telangana_name_absent (r : RawRecord) (s : String)
    (hc : r.get "college" = some s)
    (hstate : determine_state_logic (some s) REPLACEMENT_MAP KNOWN_STATES =
      "Telangana")
    (hnohyph : containsChar '-' s = false) :
    (processRecord r).state = "Telangana" ∧
      (processRecord r).college_name = none := by
  unfold processRecord
  rw [hc]
  refine ⟨hstate, ?_⟩
  simp [extract_college_name, hnohyph]

theorem hyphenless_telangana_name_absent_witness :
    ((RawRecord.mk [("college", some "Telangana")]).get "college" =
        some "Telangana" ∧
      determine_state_logic (some "Telangana") REPLACEMENT_MAP KNOWN_STATES =
        "Telangana" ∧
      containsChar '-' "Telangana" = false) ∧
    ((processRecord (RawRecord.mk [("college", some "Telangana")])).state =
        "Telangana" ∧
      (processRecord (RawRecord.mk [("college", some "Telangana")])).college_name =
        none) :=
  ⟨⟨by decide, by decide, by decide⟩,
    hyphenless_telangana_name_absent (RawRecord.mk [("college", some "Telangana")])
      "Telangana" (by decide) (by decide) (by decide)⟩
